import Mathlib

/-!
Shallow embedding of the accessplanit-demo scripts
(fetch-course-data.js, fetch-help-endpoints.js, scheduler.js).

Remote responses, the process environment, the command line and the
wall-clock timestamps are inputs of the model; file-system effects are
explicit state passing over an FsState value.  JSON numbers are modelled
as integers (none of the scripts does numeric computation on payloads).
-/

namespace AccessPlanit

/-- JSON values as the scripts handle them (payloads are opaque JSON). -/
inductive Json where
  | null
  | bool (b : Bool)
  | num (n : Int)
  | str (s : String)
  | arr (elems : List Json)
  | obj (fields : List (String × Json))

/-- First binding of a key in a JS object literal, as parsed JSON. -/
def lookupField : List (String × Json) → String → Option Json
  | [], _ => none
  | (k, v) :: rest, key => if k = key then some v else lookupField rest key

/-- JS member access o.k on a JSON value: reading a property of null
throws a TypeError (the error branch, carrying its message); otherwise the
access yields undefined unless the value is an object that has the key. -/
def jsMember : Json → String → Except String (Option Json)
  | .null, k => .error ("Cannot read properties of null (reading " ++ k ++ ")")
  | .obj fields, k => .ok (lookupField fields k)
  | _, _ => .ok none

/-- The value a non-throwing member access produces: the ok payload of
jsMember away from null. -/
def memberOrUndef : Json → String → Option Json
  | .obj fields, k => lookupField fields k
  | _, _ => none

/-- JS truthiness of a JSON value. -/
def jsTruthy : Json → Bool
  | .null => false
  | .bool b => b
  | .num n => decide (n ≠ 0)
  | .str s => decide (s ≠ "")
  | .arr _ => true
  | .obj _ => true

/-- The .length property of a JSON value: arrays and strings have one,
a plain object only when the payload itself carried a length key. -/
def jsLength : Json → Option Json
  | .arr xs => some (.num xs.length)
  | .str s => some (.num s.length)
  | .obj fields => lookupField fields "length"
  | _ => none

/-- JS String() coercion restricted to the cases that can reach a template
literal in these scripts. -/
def jsToString : Json → String
  | .null => "null"
  | .bool b => cond b "true" "false"
  | .num n => toString n
  | .str s => s
  | .arr _ => ""
  | .obj _ => "[object Object]"

/-- Template-literal interpolation of a possibly-undefined JS value. -/
def jsTemplateStr : Option Json → String
  | none => "undefined"
  | some j => jsToString j

/-- JS truthiness of a possibly-missing environment string
(undefined or empty string is falsy). -/
def strTruthy : Option String → Bool
  | none => false
  | some s => decide (s ≠ "")

/-- Numeric value of a decimal digit character. -/
def digitVal (c : Char) : Nat := c.toNat - 48

/-- Value of a list of decimal digit characters, most significant first. -/
def digitsToNat (ds : List Char) : Nat :=
  ds.foldl (fun acc c => acc * 10 + digitVal c) 0

/-- ASCII whitespace skipped by parseInt before the number. -/
def isJsSpace (c : Char) : Bool :=
  c = ' ' ∨ c = '\t' ∨ c = '\n' ∨ c = '\r'

/-- JS parseInt on a string with the default radix: skip leading
whitespace, optional sign, then the longest prefix of decimal digits;
none models NaN (no digits). Hexadecimal 0x prefixes are not modelled. -/
def jsParseInt (s : String) : Option Int :=
  let cs := s.data.dropWhile isJsSpace
  let signAndRest : Int × List Char :=
    match cs with
    | '-' :: r => (-1, r)
    | '+' :: r => (1, r)
    | r => (1, r)
  let ds := signAndRest.2.takeWhile Char.isDigit
  if ds = [] then none
  else some (signAndRest.1 * (digitsToNat ds : Int))

/-- Array.prototype.indexOf restricted to string arrays; none models -1. -/
def findFlagIndex : List String → String → Option Nat
  | [], _ => none
  | a :: rest, x => if a = x then some 0 else (findFlagIndex rest x).map (· + 1)

/-- The limit computed by main from process.argv.slice(2):
limitIndex !== -1 && args[limitIndex + 1] ? parseInt(args[limitIndex + 1]) : 10.
none models NaN. -/
def parseLimit (args : List String) : Option Int :=
  match findFlagIndex args "--limit" with
  | none => some 10
  | some i =>
    match args[i + 1]? with
    | none => some 10
    | some v => if v = "" then some 10 else jsParseInt v

/-- A value in an axios params object: the limit is a number or NaN,
the orderings are strings. -/
inductive ParamValue where
  | int (n : Int)
  | nan
  | str (s : String)
deriving Repr, DecidableEq

/-- The $top value derived from the parsed limit (none, i.e. NaN, is sent
through as NaN). -/
def limitParam : Option Int → ParamValue
  | some n => .int n
  | none => .nan

/-- Template-literal rendering of the limit (NaN prints as NaN). -/
def limitDisplay : Option Int → String
  | some n => toString n
  | none => "NaN"

/-- Query parameters built by fetchCourseTemplates. -/
def courseTemplateParams (limit : Option Int) : List (String × ParamValue) :=
  [("$top", limitParam limit), ("$orderby", .str "Name asc")]

/-- Query parameters built by fetchCourseDates. -/
def courseDateParams (limit : Option Int) : List (String × ParamValue) :=
  [("$top", limitParam limit), ("$orderby", .str "StartDate asc")]

/-- The module-level apiConfig base URL. -/
def baseURL : String := "https://shelter.accessplanit.com/accessplansandbox"

def tokenEndpoint : String := "/api/v2/token"

def courseDatesEndpoint : String := "/api/v2/coursedate"

def courseTemplatesEndpoint : String := "/api/v2/coursetemplate"

def courseDateHelpEndpoint : String := "/apihelp/v2/modules/courseDate"

def courseTemplateHelpEndpoint : String := "/apihelp/v2/modules/courseTemplate"

/-- A run of n space characters, for JSON indentation. -/
def spaces (n : Nat) : String := String.mk (List.replicate n ' ')

/-- A JSON string literal (escaping of special characters inside payload
strings is not modelled). -/
def quoteStr (s : String) : String := "\"" ++ s ++ "\""

/-- Lines of a pretty-printed JSON block: each item on its own line at the
given indentation, separated by commas. -/
def joinIndented (pad : Nat) (items : List String) : String :=
  String.intercalate ",\n" (items.map (fun s => spaces pad ++ s))

mutual

/-- JSON.stringify(v, null, 2) at an enclosing indentation depth. -/
def stringifyInd (pad : Nat) : Json → String
  | .null => "null"
  | .bool b => cond b "true" "false"
  | .num n => toString n
  | .str s => quoteStr s
  | .arr [] => "[]"
  | .arr (x :: xs) =>
      "[\n" ++ joinIndented (pad + 2) (stringifyIndList (pad + 2) (x :: xs)) ++
        "\n" ++ spaces pad ++ "]"
  | .obj [] => "\x7b\x7d"
  | .obj (f :: rest) =>
      "\x7b\n" ++ joinIndented (pad + 2) (stringifyIndFields (pad + 2) (f :: rest)) ++
        "\n" ++ spaces pad ++ "\x7d"

def stringifyIndList (pad : Nat) : List Json → List String
  | [] => []
  | x :: xs => stringifyInd pad x :: stringifyIndList pad xs

def stringifyIndFields (pad : Nat) : List (String × Json) → List String
  | [] => []
  | (k, v) :: xs => (quoteStr k ++ ": " ++ stringifyInd pad v) :: stringifyIndFields pad xs

end

/-- JSON.stringify(v, null, 2), as used for the output files. -/
def jsonStringify2 (j : Json) : String := stringifyInd 0 j

mutual

/-- JSON.stringify(v) without indentation, as used when logging error
response bodies. -/
def stringifyC : Json → String
  | .null => "null"
  | .bool b => cond b "true" "false"
  | .num n => toString n
  | .str s => quoteStr s
  | .arr xs => "[" ++ String.intercalate "," (stringifyCList xs) ++ "]"
  | .obj fields => "\x7b" ++ String.intercalate "," (stringifyCFields fields) ++ "\x7d"

def stringifyCList : List Json → List String
  | [] => []
  | x :: xs => stringifyC x :: stringifyCList xs

def stringifyCFields : List (String × Json) → List String
  | [] => []
  | (k, v) :: xs => (quoteStr k ++ ":" ++ stringifyC v) :: stringifyCFields xs

end

/-- State of the script directory on disk: whether the output directory
exists, and the files inside it (newest first). -/
structure FsState where
  outputDirExists : Bool
  files : List (String × String)

/-- fs.mkdirSync(outputDir) guarded by fs.existsSync(outputDir). -/
def ensureOutputDir (fs : FsState) : FsState :=
  if fs.outputDirExists then fs else { fs with outputDirExists := true }

/-- fs.writeFileSync inside the output directory. -/
def writeFile (fs : FsState) (name contents : String) : FsState :=
  { fs with files := (name, contents) :: fs.files }

/-- An error raised by the HTTP client: a message, and the response
status/data when the server answered (absent on pure network failure). -/
structure HttpErrorInfo where
  message : String
  response : Option (Nat × Json)

/-- Outcome of one HTTP exchange as seen by the caller: response.data on
success, or the thrown error. -/
abbrev HttpResult : Type := Except HttpErrorInfo Json

/-- Whether an HTTP exchange failed. -/
def httpFailed : HttpResult → Bool
  | .error _ => true
  | .ok _ => false

/-- Levels of the console logger in both scripts. -/
inductive LogLevel where
  | info
  | success
  | warn
  | error
deriving Repr, DecidableEq

/-- One console log line (the timestamp prefix is not modelled). -/
structure LogEntry where
  level : LogLevel
  message : String
deriving Repr, DecidableEq

/-- The two error log lines emitted when error.response is present, after
the leading failure message. -/
def httpErrorLogs (context : String) (e : HttpErrorInfo) : List LogEntry :=
  ⟨.error, context ++ e.message⟩ ::
    (match e.response with
     | some (status, body) =>
         [⟨.error, "Response status: " ++ toString status⟩,
          ⟨.error, "Response data: " ++ stringifyC body⟩]
     | none => [])

/-- An outbound HTTP request as the scripts assemble it. -/
structure HttpRequest where
  method : String
  url : String
  headers : List (String × String)
  formBody : List (String × String)
  params : List (String × ParamValue)
deriving Repr, DecidableEq

/-- One key of a qs.stringify form body; qs omits undefined values. -/
def formField (k : String) (v : Option String) : List (String × String) :=
  match v with
  | some s => [(k, s)]
  | none => []

/-- The token POST built by getToken from the environment credentials. -/
def tokenRequest (user pass : Option String) : HttpRequest :=
  { method := "POST"
    url := baseURL ++ tokenEndpoint
    headers := [("Content-Type", "application/x-www-form-urlencoded")]
    formBody := [("grant_type", "password")] ++ formField "username" user ++
      formField "password" pass
    params := [] }

/-- What one call of getToken produced: the requests it sent, the settled
result of its promise (the access_token value, possibly undefined, or the
message of the wrapped error it threw), and its log lines. -/
structure TokenOutcome where
  requests : List HttpRequest
  result : Except String (Option Json)
  logs : List LogEntry

/-- getToken: one POST of the form-encoded credentials. On a 2xx exchange
it logs success and then reads response.data.access_token: on a null body
that member access throws a TypeError, which the same catch block turns
into the generic wrapped error (the TypeError carries no response field,
so only the message line is logged). On an HTTP error it logs the failure
with status and body when a response is present and throws the generic
wrapped error. -/
def getToken (user pass : Option String) (resp : HttpResult) : TokenOutcome :=
  match resp with
  | .ok data =>
      match jsMember data "access_token" with
      | .ok tokVal =>
          { requests := [tokenRequest user pass]
            result := .ok tokVal
            logs := [⟨.info, "Fetching API token..."⟩,
                     ⟨.success, "API token retrieved successfully"⟩] }
      | .error msg =>
          { requests := [tokenRequest user pass]
            result := .error "Failed to fetch API token."
            logs := [⟨.info, "Fetching API token..."⟩,
                     ⟨.success, "API token retrieved successfully"⟩,
                     ⟨.error, "Failed to fetch API token: " ++ msg⟩] }
  | .error e =>
      { requests := [tokenRequest user pass]
        result := .error "Failed to fetch API token."
        logs := ⟨.info, "Fetching API token..."⟩ ::
          httpErrorLogs "Failed to fetch API token: " e }

/-- Whether getToken ends by throwing, i.e. its promise rejects. -/
def getTokenThrows (user pass : Option String) (resp : HttpResult) : Bool :=
  match (getToken user pass resp).result with
  | .error _ => true
  | .ok _ => false

/-- A GET issued through apiRequest: bearer auth header (template-literal
interpolation of the token value) plus the query params. -/
def dataRequest (endpoint : String) (token : Option Json)
    (params : List (String × ParamValue)) : HttpRequest :=
  { method := "GET"
    url := baseURL ++ endpoint
    headers := [("Authorization", "Bearer " ++ jsTemplateStr token)]
    formBody := []
    params := params }

/-- new Date().toISOString().replace with the [:.] class: each colon or
dot becomes a dash, all other characters are unchanged. -/
def sanitizeChar (c : Char) : Char :=
  if c = ':' ∨ c = '.' then '-' else c

/-- The sanitized timestamp embedded in output file names. -/
def sanitizeTimestamp (s : String) : String :=
  String.mk (s.data.map sanitizeChar)

/-- Output file name for one job kind at one wall-clock instant. -/
def outputFileName (kind ts : String) : String :=
  kind ++ "-" ++ sanitizeTimestamp ts ++ ".json"

/-- The expression results?.length || 0 applied to the already-read
results member: undefined and null short-circuit the optional chain, and
|| 0 replaces any falsy length. -/
def lengthOrZero : Option Json → Json
  | none => .num 0
  | some .null => .num 0
  | some v =>
    match jsLength v with
    | none => .num 0
    | some l => if jsTruthy l then l else .num 0

/-- What one fetch job produced: the value its promise fulfilled with
(the response data, or null after a caught failure), the file system it
left behind, the request it issued, and its log lines. -/
structure JobResult where
  value : Option Json
  fs : FsState
  request : HttpRequest
  logs : List LogEntry

/-- Shared body of the two data jobs. On an HTTP failure: log it, fulfil
with null, touch nothing. On a 2xx response: create the output directory
if absent, write the pretty-printed response under kind-timestamp.json and
log the save, then read response.results for the count log — on a null
payload that member access throws after the file is already written, so
the catch logs the failure and the job fulfils with null. -/
def dataJob (endpoint kindFile kindTitle kindLog : String) (token : Option Json)
    (limit : Option Int) (params : List (String × ParamValue)) (resp : HttpResult)
    (ts : String) (fs : FsState) : JobResult :=
  let req := dataRequest endpoint token params
  let fetchingLog : LogEntry :=
    ⟨.info, "Fetching " ++ kindLog ++ " (limit: " ++ limitDisplay limit ++ ")..."⟩
  match resp with
  | .error e =>
      { value := none
        fs := fs
        request := req
        logs := fetchingLog ::
          httpErrorLogs ("API request failed for " ++ endpoint ++ ": ") e ++
          [⟨.error, "Failed to fetch " ++ kindLog ++ ": " ++ e.message⟩] }
  | .ok data =>
      let fs1 := ensureOutputDir fs
      let name := outputFileName kindFile ts
      let fs2 := writeFile fs1 name (jsonStringify2 data)
      let savedLog : LogEntry := ⟨.success, kindTitle ++ " saved to: " ++ name⟩
      match jsMember data "results" with
      | .error msg =>
          { value := none
            fs := fs2
            request := req
            logs := [fetchingLog, savedLog,
                     ⟨.error, "Failed to fetch " ++ kindLog ++ ": " ++ msg⟩] }
      | .ok results =>
          { value := some data
            fs := fs2
            request := req
            logs := [fetchingLog, savedLog,
                     ⟨.info, "Retrieved " ++ jsToString (lengthOrZero results) ++
                       " " ++ kindLog⟩] }

/-- fetchCourseTemplates(token, limit): $top/$orderby Name asc against the
course-template endpoint, output files named course-templates-... . -/
def fetchCourseTemplates (token : Option Json) (limit : Option Int)
    (resp : HttpResult) (ts : String) (fs : FsState) : JobResult :=
  dataJob courseTemplatesEndpoint "course-templates" "Course templates"
    "course templates" token limit (courseTemplateParams limit) resp ts fs

/-- fetchCourseDates(token, limit): $top/$orderby StartDate asc against the
course-date endpoint, output files named course-dates-... . -/
def fetchCourseDates (token : Option Json) (limit : Option Int)
    (resp : HttpResult) (ts : String) (fs : FsState) : JobResult :=
  dataJob courseDatesEndpoint "course-dates" "Course dates"
    "course dates" token limit (courseDateParams limit) resp ts fs

/-- fetchAndSaveHelpEndpoint(endpoint, filename, token): parameter-less GET,
save the pretty-printed response; on any failure log and fulfil with null.
Unlike the data jobs it never reads a member of the payload, so even a
null payload is saved and returned from the try block. -/
def fetchAndSaveHelpEndpoint (endpoint filename : String) (token : Option Json)
    (resp : HttpResult) (ts : String) (fs : FsState) : JobResult :=
  let req := dataRequest endpoint token []
  let fetchingLog : LogEntry := ⟨.info, "Fetching " ++ filename ++ "..."⟩
  match resp with
  | .error e =>
      { value := none
        fs := fs
        request := req
        logs := fetchingLog ::
          httpErrorLogs ("API request failed for " ++ endpoint ++ ": ") e ++
          [⟨.error, "Failed to fetch " ++ filename ++ ": " ++ e.message⟩] }
  | .ok data =>
      let fs1 := ensureOutputDir fs
      let name := outputFileName filename ts
      let fs2 := writeFile fs1 name (jsonStringify2 data)
      { value := some data
        fs := fs2
        request := req
        logs := [fetchingLog, ⟨.success, filename ++ " saved to: " ++ name⟩] }

/-- One entry of a Promise.allSettled result. -/
inductive Settled where
  | fulfilled (value : Option Json)
  | rejected (message : String)

/-- The allSettled entry for a fetch job: the job's async function returns
from its try block or returns null from its catch block and never throws,
so its promise always fulfils. -/
def settleJob (r : JobResult) : Settled := .fulfilled r.value

/-- The status test the summary applies to each allSettled entry. -/
def isFulfilled : Settled → Bool
  | .fulfilled _ => true
  | .rejected _ => false

/-- Inputs of one run of the fetch-course-data entry point: the two
credential environment variables, the CLI arguments after the script name,
and the remote outcome and wall-clock instant of each HTTP exchange. -/
structure RunInput where
  user : Option String
  pass : Option String
  args : List String
  tokenResp : HttpResult
  templatesResp : HttpResult
  datesResp : HttpResult
  templatesTs : String
  datesTs : String

/-- Observable outcome of one run: process exit code, the per-job Success
flags of the summary when it was printed, the final file system, and the
inner results when execution reached the jobs. -/
structure RunOutcome where
  exitCode : Nat
  summary : Option (Bool × Bool)
  fs : FsState
  limitUsed : Option (Option Int)
  tokenUsed : Option (Option Json)
  templatesJob : Option JobResult
  datesJob : Option JobResult

/-- The credential precondition !user || !pass checked before any network
activity. -/
def credsPresent (user pass : Option String) : Bool :=
  strTruthy user && strTruthy pass

/-- main() of fetch-course-data.js: credential check (exit 1), limit parse,
token fetch (a thrown token error reaches the outer catch: exit 1), then
both data jobs behind Promise.allSettled and the summary; normal completion
exits 0. The two jobs share the directory state; their writes target
distinct names so the sequencing chosen here is immaterial. -/
def mainRun (inp : RunInput) (fs0 : FsState) : RunOutcome :=
  if credsPresent inp.user inp.pass = false then
    { exitCode := 1, summary := none, fs := fs0, limitUsed := none
      tokenUsed := none, templatesJob := none, datesJob := none }
  else
    let limit := parseLimit inp.args
    match (getToken inp.user inp.pass inp.tokenResp).result with
    | .error _ =>
        { exitCode := 1, summary := none, fs := fs0, limitUsed := some limit
          tokenUsed := none, templatesJob := none, datesJob := none }
    | .ok token =>
        let r1 := fetchCourseTemplates token limit inp.templatesResp inp.templatesTs fs0
        let r2 := fetchCourseDates token limit inp.datesResp inp.datesTs r1.fs
        { exitCode := 0
          summary := some (isFulfilled (settleJob r1), isFulfilled (settleJob r2))
          fs := r2.fs
          limitUsed := some limit
          tokenUsed := some token
          templatesJob := some r1
          datesJob := some r2 }

/-- The interval passed to setInterval: 15 * 60 * 1000 milliseconds. -/
def schedulerIntervalMs : Nat := 15 * 60 * 1000

/-- One child_process.spawn call as the scheduler issues it. -/
structure SpawnRecord where
  cmd : String
  args : List String
  stdio : String
deriving Repr, DecidableEq

/-- The spawn the scheduler performs on start and on every tick. -/
def helpSpawn : SpawnRecord :=
  { cmd := "node", args := ["fetch-help-endpoints.js"], stdio := "inherit" }

/-- Events the scheduler process reacts to after start: an interval tick,
a close event of some child (with its exit code), or a spawn error event. -/
inductive SchedEvent where
  | tick
  | childClose (code : Int)
  | childError (message : String)
deriving Repr, DecidableEq

/-- Test for interval ticks among scheduler events. -/
def isTick : SchedEvent → Bool
  | .tick => true
  | _ => false

/-- State of the scheduler process: spawns issued so far (newest first),
log lines (newest first), whether the interval timer is live, and whether
the process has exited. -/
structure SchedState where
  spawns : List SpawnRecord
  logs : List String
  timerActive : Bool
  exited : Bool

/-- runScript(): log, then spawn the help-fetch script. -/
def runScript (s : SchedState) : SchedState :=
  { s with
    spawns := helpSpawn :: s.spawns
    logs := "Running fetch-help-endpoints.js..." :: s.logs }

/-- Scheduler start: runScript() immediately, then setInterval arms the
timer and the start-up banner is logged. -/
def schedulerStart : SchedState :=
  let s := runScript { spawns := [], logs := [], timerActive := false, exited := false }
  { s with
    timerActive := true
    logs := "Press Ctrl+C to stop" ::
      "Scheduler started - will run fetch-help-endpoints.js every 15 minutes" :: s.logs }

/-- The scheduler's reaction to one event: a tick runs runScript() again
while the timer is live; a child close or error event only logs. Nothing
clears the interval or calls process.exit. -/
def schedStep (s : SchedState) : SchedEvent → SchedState
  | .tick => if s.timerActive then runScript s else s
  | .childClose code =>
      { s with logs :=
          (if code = 0 then "Script completed successfully"
           else "Script exited with code " ++ toString code) :: s.logs }
  | .childError msg =>
      { s with logs := ("Error running script: " ++ msg) :: s.logs }

/-- The scheduler process over a whole event history. -/
def schedRun (events : List SchedEvent) : SchedState :=
  events.foldl schedStep schedulerStart

/-- Shape of position i of a Date.toISOString() value
(YYYY-MM-DDTHH:MM:SS.mmmZ): dashes at 4 and 7, T at 10, colons at 13 and
16, a dot at 19, Z at 23, and decimal digits everywhere else. -/
def checkPos (i : Nat) (c : Char) : Bool :=
  if i = 4 ∨ i = 7 then c == '-'
  else if i = 10 then c == 'T'
  else if i = 13 ∨ i = 16 then c == ':'
  else if i = 19 then c == '.'
  else if i = 23 then c == 'Z'
  else c.isDigit

/-- Well-formedness of a wall-clock string as produced by
Date.toISOString(): 24 characters, each of the shape the format fixes.
Normal clock progression only ever hands the scripts such strings. -/
def isIsoTimestamp (s : String) : Bool :=
  s.data.length == 24 && (List.range 24).all (fun i => checkPos i (s.data.getD i ' '))

/-- A file system with no output directory yet, as on a first run. -/
def emptyFs : FsState := { outputDirExists := false, files := [] }

/-- A run input with fixed valid credentials, used when stating claims
about behavior past the credential check. -/
def runWith (args : List String) (tokenResp templatesResp datesResp : HttpResult)
    (ts1 ts2 : String) : RunInput :=
  { user := some "u"
    pass := some "p"
    args := args
    tokenResp := tokenResp
    templatesResp := templatesResp
    datesResp := datesResp
    templatesTs := ts1
    datesTs := ts2 }

/-- Concrete run instance for claim C1: credentials present, token exchange
succeeds, the template fetch fails with HTTP 500 and the dates fetch
succeeds. -/
def oneFailureInput : RunInput :=
  { user := some "u"
    pass := some "p"
    args := []
    tokenResp := .ok (.obj [("access_token", .str "tok")])
    templatesResp := .error
      { message := "Request failed with status code 500", response := some (500, .null) }
    datesResp := .ok (.obj [("results", .arr [])])
    templatesTs := "2025-01-01T00:00:00.000Z"
    datesTs := "2025-01-01T00:00:00.001Z" }

theorem ensureOutputDir_files (fs : FsState) :
    (ensureOutputDir fs).files = fs.files := by
  unfold ensureOutputDir
  split <;> rfl

theorem ensureOutputDir_dir (fs : FsState) :
    (ensureOutputDir fs).outputDirExists = true := by
  unfold ensureOutputDir
  split
  · assumption
  · rfl

theorem dataJob_request (endpoint kindFile kindTitle kindLog : String)
    (token : Option Json) (limit : Option Int) (params : List (String × ParamValue))
    (resp : HttpResult) (ts : String) (fs : FsState) :
    (dataJob endpoint kindFile kindTitle kindLog token limit params resp ts fs).request =
      dataRequest endpoint token params := by
  cases resp with
  | error e => rfl
  | ok data => cases data <;> rfl

theorem dataJob_ok_fs (endpoint kindFile kindTitle kindLog : String)
    (token : Option Json) (limit : Option Int) (params : List (String × ParamValue))
    (data : Json) (ts : String) (fs : FsState) :
    (dataJob endpoint kindFile kindTitle kindLog token limit params (.ok data) ts fs).fs =
      writeFile (ensureOutputDir fs) (outputFileName kindFile ts) (jsonStringify2 data) := by
  cases data <;> rfl

theorem jsMember_ne_null (data : Json) (k : String) (hd : data ≠ .null) :
    jsMember data k = .ok (memberOrUndef data k) := by
  cases data
  case null => exact absurd rfl hd
  all_goals rfl

theorem dataJob_ok_value (endpoint kindFile kindTitle kindLog : String)
    (token : Option Json) (limit : Option Int) (params : List (String × ParamValue))
    (data : Json) (hd : data ≠ .null) (ts : String) (fs : FsState) :
    (dataJob endpoint kindFile kindTitle kindLog token limit params (.ok data) ts fs).value =
      some data ∧
    (dataJob endpoint kindFile kindTitle kindLog token limit params (.ok data) ts fs).logs =
      [⟨.info, "Fetching " ++ kindLog ++ " (limit: " ++ limitDisplay limit ++ ")..."⟩,
       ⟨.success, kindTitle ++ " saved to: " ++ outputFileName kindFile ts⟩,
       ⟨.info, "Retrieved " ++ jsToString (lengthOrZero (memberOrUndef data "results")) ++
         " " ++ kindLog⟩] := by
  cases data
  case null => exact absurd rfl hd
  all_goals exact ⟨rfl, rfl⟩

theorem sanitizeChar_digit (c : Char) (h : c.isDigit = true) : sanitizeChar c = c := by
  have h1 : ¬ (c = ':' ∨ c = '.') := by
    rintro (rfl | rfl) <;> exact absurd h (by decide)
  simp [sanitizeChar, h1]

theorem checkPos_char_inj (i : Nat) (c d : Char) (hc : checkPos i c = true)
    (hd : checkPos i d = true) (h : sanitizeChar c = sanitizeChar d) : c = d := by
  unfold checkPos at hc hd
  by_cases h47 : i = 4 ∨ i = 7
  · rw [if_pos h47, beq_iff_eq] at hc hd
    rw [hc, hd]
  · rw [if_neg h47] at hc hd
    by_cases h10 : i = 10
    · rw [if_pos h10, beq_iff_eq] at hc hd
      rw [hc, hd]
    · rw [if_neg h10] at hc hd
      by_cases h1316 : i = 13 ∨ i = 16
      · rw [if_pos h1316, beq_iff_eq] at hc hd
        rw [hc, hd]
      · rw [if_neg h1316] at hc hd
        by_cases h19 : i = 19
        · rw [if_pos h19, beq_iff_eq] at hc hd
          rw [hc, hd]
        · rw [if_neg h19] at hc hd
          by_cases h23 : i = 23
          · rw [if_pos h23, beq_iff_eq] at hc hd
            rw [hc, hd]
          · rw [if_neg h23] at hc hd
            rw [sanitizeChar_digit c hc, sanitizeChar_digit d hd] at h
            exact h

theorem sanitizeTimestamp_inj (s t : String) (hs : isIsoTimestamp s = true)
    (ht : isIsoTimestamp t = true)
    (h : sanitizeTimestamp s = sanitizeTimestamp t) : s = t := by
  unfold isIsoTimestamp at hs ht
  rw [Bool.and_eq_true] at hs ht
  obtain ⟨hs1, hs2⟩ := hs
  obtain ⟨ht1, ht2⟩ := ht
  rw [Nat.beq_eq_true_eq] at hs1 ht1
  rw [List.all_eq_true] at hs2 ht2
  have hd : s.data.map sanitizeChar = t.data.map sanitizeChar := congrArg String.data h
  have hdata : s.data = t.data := by
    apply List.ext
    intro n
    by_cases hn : n < 24
    · have hns : n < s.data.length := by omega
      have hnt : n < t.data.length := by omega
      have hgs := List.get?_eq_get hns
      have hgt := List.get?_eq_get hnt
      have hmap := congrArg (fun l => l.get? n) hd
      simp only [List.get?_map, hgs, hgt, Option.map_some'] at hmap
      have hcs := hs2 n (List.mem_range.mpr hn)
      have hct := ht2 n (List.mem_range.mpr hn)
      rw [List.getD_eq_get s.data ' ' hns] at hcs
      rw [List.getD_eq_get t.data ' ' hnt] at hct
      rw [hgs, hgt]
      have := checkPos_char_inj n _ _ hcs hct (Option.some_injective _ hmap)
      rw [this]
    · rw [List.get?_eq_none.mpr (by omega), List.get?_eq_none.mpr (by omega)]
  exact String.ext hdata

theorem outputFileName_inj (kind s t : String) (hs : isIsoTimestamp s = true)
    (ht : isIsoTimestamp t = true) (hne : s ≠ t) :
    outputFileName kind s ≠ outputFileName kind t := by
  intro h
  apply hne
  apply sanitizeTimestamp_inj s t hs ht
  unfold outputFileName at h
  have hd := congrArg String.data h
  simp only [String.data_append] at hd
  have h2 := List.append_cancel_right hd
  have h3 := List.append_cancel_left h2
  exact String.ext h3

theorem schedFold_inv (events : List SchedEvent) (s : SchedState)
    (ht : s.timerActive = true) (he : s.exited = false)
    (hall : ∀ r ∈ s.spawns, r = helpSpawn) :
    (events.foldl schedStep s).timerActive = true ∧
    (events.foldl schedStep s).exited = false ∧
    (events.foldl schedStep s).spawns.length = s.spawns.length + events.countP isTick ∧
    ∀ r ∈ (events.foldl schedStep s).spawns, r = helpSpawn := by
  induction events generalizing s with
  | nil =>
    exact ⟨ht, he, by simp, hall⟩
  | cons e es ih =>
    rw [List.foldl_cons]
    cases e with
    | tick =>
      have hstep : schedStep s SchedEvent.tick = runScript s := by
        simp [schedStep, ht]
      have hmem : ∀ r ∈ (runScript s).spawns, r = helpSpawn := by
        intro r hr
        simp only [runScript, List.mem_cons] at hr
        rcases hr with h | h
        · exact h
        · exact hall r h
      have h2 := ih (runScript s) ht he hmem
      rw [hstep]
      refine ⟨h2.1, h2.2.1, ?_, h2.2.2.2⟩
      rw [h2.2.2.1]
      simp [runScript, List.countP_cons, isTick]
      omega
    | childClose code =>
      have h2 := ih (schedStep s (SchedEvent.childClose code)) ht he hall
      refine ⟨h2.1, h2.2.1, ?_, h2.2.2.2⟩
      rw [h2.2.2.1]
      simp [schedStep, List.countP_cons, isTick]
    | childError msg =>
      have h2 := ih (schedStep s (SchedEvent.childError msg)) ht he hall
      refine ⟨h2.1, h2.2.1, ?_, h2.2.2.2⟩
      rw [h2.2.2.1]
      simp [schedStep, List.countP_cons, isTick]

/-- C2: the one-shot entry point exits 0 on normal completion, job failures
included, and exits 1 exactly when the credential check fails (missing or
empty ACCESS_PLANIT_USER / ACCESS_PLANIT_PASS) or the token acquisition
fails, where getToken throws precisely when the HTTP exchange failed or a
2xx response carried a JSON-null body (the access_token read then throws);
the fetch outcomes of the two jobs never influence the exit code. -/
theorem c2_exit_codes (inp : RunInput) (fs0 : FsState) :
    ((mainRun inp fs0).exitCode =
      if credsPresent inp.user inp.pass = true ∧
         getTokenThrows inp.user inp.pass inp.tokenResp = false
      then 0 else 1) ∧
    (getTokenThrows inp.user inp.pass inp.tokenResp = true ↔
      httpFailed inp.tokenResp = true ∨ inp.tokenResp = .ok .null) := by
  constructor
  · unfold mainRun
    by_cases hc : credsPresent inp.user inp.pass = false
    · simp [hc, getTokenThrows]
    · rw [if_neg hc]
      have hc' : credsPresent inp.user inp.pass = true := by
        cases h : credsPresent inp.user inp.pass
        · exact absurd h hc
        · rfl
      rcases hres : (getToken inp.user inp.pass inp.tokenResp).result with msg | tok <;>
        simp [getTokenThrows, hres, hc']
  · cases inp.tokenResp with
    | error e => simp [getTokenThrows, getToken, httpFailed]
    | ok data => cases data <;> simp [getTokenThrows, getToken, jsMember, httpFailed]

/-- C3 counterexample: with the argument list [--limit, abc] the code
computes parseInt(abc), which is NaN, not the default 10. -/
theorem c3_counterexample : parseLimit ["--limit", "abc"] ≠ some 10 := by decide

/-- C3 amended: when the --limit flag is absent, or the value after it is
missing or empty, the limit is 10; a malformed (non-numeric) value after
the flag yields NaN, which is passed on as the limit, not 10. -/
theorem c3_amended :
    (∀ args : List String, findFlagIndex args "--limit" = none →
      parseLimit args = some 10) ∧
    (∀ (args : List String) (i : Nat), findFlagIndex args "--limit" = some i →
      (args[i + 1]? = none ∨ args[i + 1]? = some "") →
      parseLimit args = some 10) ∧
    (∀ (args : List String) (i : Nat) (v : String),
      findFlagIndex args "--limit" = some i → args[i + 1]? = some v →
      v ≠ "" → jsParseInt v = none → parseLimit args = none) ∧
    parseLimit ["--limit", "abc"] = none := by
  refine ⟨?_, ?_, ?_, by decide⟩
  · intro args h
    simp [parseLimit, h]
  · intro args i h hv
    rcases hv with hv | hv <;> simp [parseLimit, h, hv]
  · intro args i v h hv hne hp
    simp [parseLimit, h, hv, hne, hp]

theorem c3_amended_witness :
    parseLimit ["--verbose"] = some 10 ∧
    parseLimit ["--limit"] = some 10 ∧
    parseLimit ["--limit", "abc"] = none :=
  ⟨c3_amended.1 ["--verbose"] (by decide),
   c3_amended.2.1 ["--limit"] 0 (by decide) (Or.inl (by decide)),
   c3_amended.2.2.1 ["--limit", "abc"] 0 "abc" (by decide) (by decide)
     (by decide) (by decide)⟩

/-- C5: with --limit 5 the course-template request carries $top 5 and
$orderby Name asc; with no --limit flag the cap is 10; the course-date
request carries the same cap with $orderby StartDate asc; each job's GET
targets its configured endpoint with exactly these parameters. -/
theorem c5_query_params :
    parseLimit ["--limit", "5"] = some 5 ∧
    parseLimit [] = some 10 ∧
    courseTemplateParams (some 5) =
      [("$top", .int 5), ("$orderby", .str "Name asc")] ∧
    courseTemplateParams (some 10) =
      [("$top", .int 10), ("$orderby", .str "Name asc")] ∧
    courseDateParams (some 5) =
      [("$top", .int 5), ("$orderby", .str "StartDate asc")] ∧
    courseDateParams (some 10) =
      [("$top", .int 10), ("$orderby", .str "StartDate asc")] ∧
    (∀ token limit resp ts fs,
      (fetchCourseTemplates token limit resp ts fs).request =
        dataRequest courseTemplatesEndpoint token (courseTemplateParams limit) ∧
      (fetchCourseDates token limit resp ts fs).request =
        dataRequest courseDatesEndpoint token (courseDateParams limit)) ∧
    (∀ token limit, (dataRequest courseTemplatesEndpoint token
        (courseTemplateParams limit)).url = baseURL ++ courseTemplatesEndpoint) := by
  refine ⟨by decide, by decide, rfl, rfl, rfl, rfl, ?_, fun _ _ => rfl⟩
  intro token limit resp ts fs
  exact ⟨dataJob_request _ _ _ _ _ _ _ _ _ _, dataJob_request _ _ _ _ _ _ _ _ _ _⟩

/-- C8: the scheduler spawns node fetch-help-endpoints.js with inherited
stdio once at start and once per interval tick, the interval being
15 * 60 * 1000 ms; a child close event logs the exit code outcome and a
spawn error event logs the error, but no event sequence ever deactivates
the timer or exits the scheduler process. -/
theorem c8_scheduler (events : List SchedEvent) (code : Int) (msg : String)
    (s : SchedState) :
    schedulerIntervalMs = 900000 ∧
    helpSpawn = { cmd := "node", args := ["fetch-help-endpoints.js"], stdio := "inherit" } ∧
    schedulerStart.spawns = [helpSpawn] ∧
    (schedRun events).timerActive = true ∧
    (schedRun events).exited = false ∧
    (schedRun events).spawns.length = 1 + events.countP isTick ∧
    (∀ r ∈ (schedRun events).spawns, r = helpSpawn) ∧
    (schedStep s (.childClose code)).logs =
      (if code = 0 then "Script completed successfully"
       else "Script exited with code " ++ toString code) :: s.logs ∧
    (schedStep s (.childError msg)).logs =
      ("Error running script: " ++ msg) :: s.logs := by
  have h := schedFold_inv events schedulerStart rfl rfl
    (by intro r hr
        have hsp : schedulerStart.spawns = [helpSpawn] := rfl
        rw [hsp] at hr
        simpa using hr)
  refine ⟨rfl, rfl, rfl, h.1, h.2.1, ?_, h.2.2.2, rfl, rfl⟩
  have hl : (schedRun events).spawns.length =
      schedulerStart.spawns.length + events.countP isTick := h.2.2.1
  rw [hl]
  rfl

/-- C1 counterexample: with credentials present, the token exchange
succeeding, the template fetch failing with HTTP 500 and the dates fetch
succeeding, the post-run summary does not report one success and one
failure: it reports both jobs as success, because the failed job swallowed
its error and fulfilled with null. -/
theorem c1_counterexample :
    (mainRun oneFailureInput emptyFs).summary = some (true, true) ∧
    ¬ ((mainRun oneFailureInput emptyFs).summary = some (true, false) ∨
       (mainRun oneFailureInput emptyFs).summary = some (false, true)) := by
  have h1 : (mainRun oneFailureInput emptyFs).summary = some (true, true) := rfl
  refine ⟨h1, ?_⟩
  rw [h1]
  rintro (h | h) <;> simp at h

/-- C1 amended: when exactly one of the two fetch jobs meets an HTTP
failure and the sibling succeeds (the token body being an object and the
sibling payload non-null, so no member access throws), the sibling is
indeed unaffected — it fulfils with its payload and its output file is
written, while the failing job fulfils with null — but the post-run
summary reports both jobs as success, since job-level failures are
swallowed before Promise.allSettled observes the promises. -/
theorem c1_amended (e : HttpErrorInfo) (data : Json) (hd : data ≠ Json.null)
    (tfields : List (String × Json)) (args : List String) (ts1 ts2 : String)
    (fs0 : FsState) :
    ((mainRun (runWith args (.ok (.obj tfields)) (.error e) (.ok data) ts1 ts2)
        fs0).summary = some (true, true) ∧
     (mainRun (runWith args (.ok (.obj tfields)) (.error e) (.ok data) ts1 ts2)
        fs0).templatesJob.map (fun r => r.value) = some none ∧
     (mainRun (runWith args (.ok (.obj tfields)) (.error e) (.ok data) ts1 ts2)
        fs0).datesJob.map (fun r => r.value) = some (some data) ∧
     (mainRun (runWith args (.ok (.obj tfields)) (.error e) (.ok data) ts1 ts2)
        fs0).fs.files =
       (outputFileName "course-dates" ts2, jsonStringify2 data) :: fs0.files) ∧
    ((mainRun (runWith args (.ok (.obj tfields)) (.ok data) (.error e) ts1 ts2)
        fs0).summary = some (true, true) ∧
     (mainRun (runWith args (.ok (.obj tfields)) (.ok data) (.error e) ts1 ts2)
        fs0).templatesJob.map (fun r => r.value) = some (some data) ∧
     (mainRun (runWith args (.ok (.obj tfields)) (.ok data) (.error e) ts1 ts2)
        fs0).datesJob.map (fun r => r.value) = some none ∧
     (mainRun (runWith args (.ok (.obj tfields)) (.ok data) (.error e) ts1 ts2)
        fs0).fs.files =
       (outputFileName "course-templates" ts1, jsonStringify2 data) :: fs0.files) := by
  have hdv := dataJob_ok_value courseDatesEndpoint "course-dates" "Course dates"
    "course dates" (lookupField tfields "access_token") (parseLimit args)
    (courseDateParams (parseLimit args)) data hd ts2 fs0
  have htv := dataJob_ok_value courseTemplatesEndpoint "course-templates"
    "Course templates" "course templates" (lookupField tfields "access_token")
    (parseLimit args) (courseTemplateParams (parseLimit args)) data hd ts1 fs0
  have hdf := dataJob_ok_fs courseDatesEndpoint "course-dates" "Course dates"
    "course dates" (lookupField tfields "access_token") (parseLimit args)
    (courseDateParams (parseLimit args)) data ts2 fs0
  have htf := dataJob_ok_fs courseTemplatesEndpoint "course-templates"
    "Course templates" "course templates" (lookupField tfields "access_token")
    (parseLimit args) (courseTemplateParams (parseLimit args)) data ts1 fs0
  refine ⟨⟨rfl, rfl, congrArg some hdv.1, ?_⟩, ⟨rfl, congrArg some htv.1, rfl, ?_⟩⟩
  · show (dataJob courseDatesEndpoint "course-dates" "Course dates" "course dates"
        (lookupField tfields "access_token") (parseLimit args)
        (courseDateParams (parseLimit args)) (.ok data) ts2 fs0).fs.files = _
    rw [hdf]
    simp [writeFile, ensureOutputDir_files]
  · show (dataJob courseTemplatesEndpoint "course-templates" "Course templates"
        "course templates" (lookupField tfields "access_token") (parseLimit args)
        (courseTemplateParams (parseLimit args)) (.ok data) ts1 fs0).fs.files = _
    rw [htf]
    simp [writeFile, ensureOutputDir_files]

theorem c1_amended_witness :
    Json.obj [("results", Json.arr [])] ≠ Json.null ∧
    (mainRun (runWith [] (.ok (.obj [("access_token", .str "tok")]))
        (.error { message := "Request failed with status code 500", response := none })
        (.ok (.obj [("results", .arr [])])) "a" "b") emptyFs).summary =
      some (true, true) ∧
    (mainRun (runWith [] (.ok (.obj [("access_token", .str "tok")]))
        (.error { message := "Request failed with status code 500", response := none })
        (.ok (.obj [("results", .arr [])])) "a" "b") emptyFs).templatesJob.map
      (fun r => r.value) = some none :=
  have h := c1_amended
    { message := "Request failed with status code 500", response := none }
    (.obj [("results", .arr [])]) (fun hh => Json.noConfusion hh)
    [("access_token", .str "tok")] [] "a" "b" emptyFs
  ⟨fun hh => Json.noConfusion hh, h.1.1, h.1.2.1⟩

/-- C4 counterexample: at a 2xx response whose JSON body is null, the
template job writes its output file first and only then fails reading
response.results; the job does catch, log and return null, but — contrary
to the claim — this failing job did produce an output file. -/
theorem c4_counterexample :
    (fetchCourseTemplates none (some 10) (.ok .null) "2025-01-01T00:00:00.000Z"
      emptyFs).value = none ∧
    (⟨.error, "Failed to fetch course templates: Cannot read properties of null (reading results)"⟩ : LogEntry) ∈
      (fetchCourseTemplates none (some 10) (.ok .null) "2025-01-01T00:00:00.000Z"
        emptyFs).logs ∧
    (fetchCourseTemplates none (some 10) (.ok .null) "2025-01-01T00:00:00.000Z"
      emptyFs).fs.files ≠ [] := by
  refine ⟨rfl, ?_, ?_⟩
  · decide
  · decide

/-- C4 amended: every failure inside a data or help fetch job is caught at
the job boundary: the job logs the failure and fulfils with null instead
of propagating, and the sibling job runs against the unchanged input
state, its result identical to running it alone. An HTTP failure leaves
the file system untouched (no output file); the one non-HTTP in-job
failure — a 2xx null payload breaking the results read — happens after
the write, so that failing job leaves its already-written output file
behind. -/
theorem c4_failure_swallowed (token : Option Json) (limit : Option Int)
    (e : HttpErrorInfo) (ts : String) (fs : FsState) (endpoint filename : String)
    (tfields : List (String × Json)) (args : List String) (ts2 : String)
    (dresp : HttpResult) (fs0 : FsState) :
    ((fetchCourseTemplates token limit (.error e) ts fs).value = none ∧
     (fetchCourseTemplates token limit (.error e) ts fs).fs = fs ∧
     (⟨.error, "Failed to fetch course templates: " ++ e.message⟩ : LogEntry) ∈
       (fetchCourseTemplates token limit (.error e) ts fs).logs) ∧
    ((fetchCourseDates token limit (.error e) ts fs).value = none ∧
     (fetchCourseDates token limit (.error e) ts fs).fs = fs ∧
     (⟨.error, "Failed to fetch course dates: " ++ e.message⟩ : LogEntry) ∈
       (fetchCourseDates token limit (.error e) ts fs).logs) ∧
    ((fetchAndSaveHelpEndpoint endpoint filename token (.error e) ts fs).value = none ∧
     (fetchAndSaveHelpEndpoint endpoint filename token (.error e) ts fs).fs = fs ∧
     (⟨.error, "Failed to fetch " ++ filename ++ ": " ++ e.message⟩ : LogEntry) ∈
       (fetchAndSaveHelpEndpoint endpoint filename token (.error e) ts fs).logs) ∧
    ((fetchCourseTemplates token limit (.ok .null) ts fs).value = none ∧
     (fetchCourseTemplates token limit (.ok .null) ts fs).fs.files =
       (outputFileName "course-templates" ts, jsonStringify2 .null) :: fs.files ∧
     (⟨.error, "Failed to fetch course templates: Cannot read properties of null (reading results)"⟩ : LogEntry) ∈
       (fetchCourseTemplates token limit (.ok .null) ts fs).logs) ∧
    ((mainRun (runWith args (.ok (.obj tfields)) (.error e) dresp ts ts2) fs0).datesJob =
      some (fetchCourseDates (lookupField tfields "access_token") (parseLimit args)
        dresp ts2 fs0)) := by
  refine ⟨⟨rfl, rfl, ?_⟩, ⟨rfl, rfl, ?_⟩, ⟨rfl, rfl, ?_⟩, ⟨rfl, ?_, ?_⟩, rfl⟩ <;>
    simp [fetchCourseTemplates, fetchCourseDates, fetchAndSaveHelpEndpoint, dataJob,
      jsMember, writeFile, ensureOutputDir_files]

/-- C6: getToken sends exactly one POST whose form-encoded body is
grant_type=password with the environment credentials, and resolves with
the access_token member of the JSON response (when that member read does
not throw; on a null body the TypeError reaches the same catch and the
generic wrapped error is raised); on an HTTP error it logs the failure,
logs the response status and body when a response is present, and throws
the single generic wrapped error, with no retry. -/
theorem c6_get_token (user pass : Option String) (resp : HttpResult) :
    (getToken user pass resp).requests = [tokenRequest user pass] ∧
    (tokenRequest user pass).method = "POST" ∧
    (tokenRequest user pass).url = baseURL ++ tokenEndpoint ∧
    (tokenRequest user pass).formBody =
      [("grant_type", "password")] ++ formField "username" user ++
        formField "password" pass ∧
    (∀ data, resp = .ok data →
      (getToken user pass resp).result =
        match jsMember data "access_token" with
        | .ok v => .ok v
        | .error _ => .error "Failed to fetch API token.") ∧
    (∀ e, resp = .error e →
      (getToken user pass resp).result = .error "Failed to fetch API token." ∧
      (⟨.error, "Failed to fetch API token: " ++ e.message⟩ : LogEntry) ∈
        (getToken user pass resp).logs ∧
      ∀ st body, e.response = some (st, body) →
        (⟨.error, "Response status: " ++ toString st⟩ : LogEntry) ∈
          (getToken user pass resp).logs ∧
        (⟨.error, "Response data: " ++ stringifyC body⟩ : LogEntry) ∈
          (getToken user pass resp).logs) := by
  refine ⟨?_, rfl, rfl, rfl, ?_, ?_⟩
  · cases resp with
    | error e => rfl
    | ok data => cases data <;> rfl
  · rintro data rfl
    cases data <;> rfl
  · rintro e rfl
    refine ⟨rfl, ?_, ?_⟩
    · simp [getToken, httpErrorLogs]
    · rintro st body hsb
      constructor <;> simp [getToken, httpErrorLogs, hsb]

theorem c6_get_token_witness :
    (getToken (some "u") (some "p")
        (.error { message := "Request failed with status code 401",
                  response := some (401, .str "denied") })).result =
      .error "Failed to fetch API token." ∧
    (⟨.error, "Response status: " ++ toString 401⟩ : LogEntry) ∈
      (getToken (some "u") (some "p")
        (.error { message := "Request failed with status code 401",
                  response := some (401, .str "denied") })).logs ∧
    (getToken (some "u") (some "p")
        (.ok (.obj [("access_token", .str "tok")]))).result =
      .ok (some (.str "tok")) ∧
    (getToken (some "u") (some "p") (.ok .null)).result =
      .error "Failed to fetch API token." := by
  have h := c6_get_token (some "u") (some "p")
    (.error { message := "Request failed with status code 401",
              response := some (401, .str "denied") })
  have h2 := h.2.2.2.2.2
    { message := "Request failed with status code 401",
      response := some (401, .str "denied") } rfl
  have h3 := c6_get_token (some "u") (some "p")
    (.ok (.obj [("access_token", .str "tok")]))
  have h4 := h3.2.2.2.2.1 (.obj [("access_token", .str "tok")]) rfl
  have h5 := c6_get_token (some "u") (some "p") (.ok .null)
  have h6 := h5.2.2.2.2.1 .null rfl
  refine ⟨h2.1, (h2.2.2 401 (.str "denied") rfl).1, ?_, ?_⟩
  · rw [h4]
    rfl
  · rw [h6]
    rfl

/-- C9: with an HTTP-success token response whose JSON body lacks an
access_token member, getToken resolves successfully with undefined rather
than failing, and the run proceeds: exit code 0, both fetch jobs run, each
carrying the header Authorization: Bearer undefined. -/
theorem c9_undefined_token (fields : List (String × Json))
    (hf : lookupField fields "access_token" = none) (args : List String)
    (trsp drsp : HttpResult) (ts1 ts2 : String) (fs0 : FsState) :
    (getToken (some "u") (some "p") (.ok (.obj fields))).result = .ok none ∧
    (mainRun (runWith args (.ok (.obj fields)) trsp drsp ts1 ts2) fs0).exitCode = 0 ∧
    (mainRun (runWith args (.ok (.obj fields)) trsp drsp ts1 ts2) fs0).tokenUsed =
      some none ∧
    (mainRun (runWith args (.ok (.obj fields)) trsp drsp ts1 ts2) fs0).templatesJob.map
      (fun r => r.request.headers) = some [("Authorization", "Bearer undefined")] ∧
    (mainRun (runWith args (.ok (.obj fields)) trsp drsp ts1 ts2) fs0).datesJob.map
      (fun r => r.request.headers) = some [("Authorization", "Bearer undefined")] := by
  have hget : (getToken (some "u") (some "p") (.ok (.obj fields))).result = .ok none := by
    simp [getToken, jsMember, hf]
  refine ⟨hget, ?_, ?_, ?_, ?_⟩ <;>
    simp [mainRun, runWith, credsPresent, strTruthy, hget, fetchCourseTemplates,
      fetchCourseDates, dataJob_request, dataRequest, jsTemplateStr]

theorem c9_undefined_token_witness :
    lookupField [] "access_token" = none ∧
    (getToken (some "u") (some "p") (.ok (.obj []))).result = .ok none ∧
    (mainRun (runWith [] (.ok (.obj [])) (.ok .null) (.ok .null) "a" "b")
      emptyFs).exitCode = 0 :=
  have h := c9_undefined_token [] rfl [] (.ok .null) (.ok .null) "a" "b" emptyFs
  ⟨rfl, h.1, h.2.1⟩

/-- C10 counterexample: a 2xx data fetch whose payload is JSON null — a
payload without a results array — does not still succeed with a Retrieved
0 log: the file is written, then the results read throws, the catch logs
the failure and the job fulfils with null. -/
theorem c10_counterexample :
    (fetchCourseTemplates none (some 10) (.ok .null) "t" emptyFs).value = none ∧
    ¬ ((⟨.info, "Retrieved 0 course templates"⟩ : LogEntry) ∈
        (fetchCourseTemplates none (some 10) (.ok .null) "t" emptyFs).logs) ∧
    (⟨.error, "Failed to fetch course templates: Cannot read properties of null (reading results)"⟩ : LogEntry) ∈
      (fetchCourseTemplates none (some 10) (.ok .null) "t" emptyFs).logs := by
  refine ⟨rfl, ?_, ?_⟩
  · decide
  · decide

/-- C10 amended: a successful data fetch whose non-throwing results read
yields no array (payload not an object with results, results undefined)
or an empty one still fulfils with the payload, still writes its output
file, and logs Retrieved 0; a null payload instead fails after the write
and fulfils with null. -/
theorem c10_empty_results (token : Option Json) (limit : Option Int)
    (data : Json) (ts : String) (fs : FsState)
    (h : jsMember data "results" = .ok none ∨
      jsMember data "results" = .ok (some (.arr []))) :
    ((fetchCourseTemplates token limit (.ok data) ts fs).value = some data ∧
     (fetchCourseTemplates token limit (.ok data) ts fs).fs.files =
       (outputFileName "course-templates" ts, jsonStringify2 data) :: fs.files ∧
     (⟨.info, "Retrieved 0 course templates"⟩ : LogEntry) ∈
       (fetchCourseTemplates token limit (.ok data) ts fs).logs) ∧
    ((fetchCourseDates token limit (.ok data) ts fs).value = some data ∧
     (fetchCourseDates token limit (.ok data) ts fs).fs.files =
       (outputFileName "course-dates" ts, jsonStringify2 data) :: fs.files ∧
     (⟨.info, "Retrieved 0 course dates"⟩ : LogEntry) ∈
       (fetchCourseDates token limit (.ok data) ts fs).logs) := by
  have h0 : jsToString (lengthOrZero none) = "0" := rfl
  have h1 : jsToString (lengthOrZero (some (.arr []))) = "0" := rfl
  refine ⟨⟨?_, ?_, ?_⟩, ⟨?_, ?_, ?_⟩⟩ <;>
    rcases h with h | h <;>
      simp [fetchCourseTemplates, fetchCourseDates, dataJob, h, h0, h1,
        writeFile, ensureOutputDir_files]

theorem c10_empty_results_witness :
    (jsMember (.obj []) "results" = .ok none ∨
      jsMember (.obj []) "results" = .ok (some (.arr []))) ∧
    (fetchCourseTemplates none none (.ok (.obj [])) "t" emptyFs).value =
      some (.obj []) ∧
    (⟨.info, "Retrieved 0 course templates"⟩ : LogEntry) ∈
      (fetchCourseTemplates none none (.ok (.obj [])) "t" emptyFs).logs :=
  have h := c10_empty_results none none (.obj []) "t" emptyFs (Or.inl rfl)
  ⟨Or.inl rfl, h.1.1, h.1.2.2⟩

/-- C7: a successful fetch job creates the output directory if absent and
writes one new file named kind-sanitizedTimestamp.json holding exactly
the payload pretty-printed with 2-space indentation, keeping every prior
file; distinct toISOString instants sanitize to distinct names, so under
normal clock progression no prior file is ever overwritten. -/
theorem c7_output_files (token : Option Json) (limit : Option Int)
    (data : Json) (ts : String) (fs : FsState) (endpoint filename kind : String)
    (s t : String) (hs : isIsoTimestamp s = true) (ht : isIsoTimestamp t = true)
    (hne : s ≠ t) :
    (fetchCourseTemplates token limit (.ok data) ts fs).fs.files =
      (outputFileName "course-templates" ts, jsonStringify2 data) :: fs.files ∧
    (fetchCourseTemplates token limit (.ok data) ts fs).fs.outputDirExists = true ∧
    (fetchCourseDates token limit (.ok data) ts fs).fs.files =
      (outputFileName "course-dates" ts, jsonStringify2 data) :: fs.files ∧
    (fetchAndSaveHelpEndpoint endpoint filename token (.ok data) ts fs).fs.files =
      (outputFileName filename ts, jsonStringify2 data) :: fs.files ∧
    (fetchAndSaveHelpEndpoint endpoint filename token (.ok data) ts fs).fs.outputDirExists =
      true ∧
    outputFileName kind s ≠ outputFileName kind t := by
  refine ⟨?_, ?_, ?_, ?_, ?_, outputFileName_inj kind s t hs ht hne⟩ <;>
    simp [fetchCourseTemplates, fetchCourseDates, fetchAndSaveHelpEndpoint,
      dataJob_ok_fs, writeFile, ensureOutputDir_files, ensureOutputDir_dir]

theorem c7_output_files_witness :
    isIsoTimestamp "2025-01-01T00:00:00.000Z" = true ∧
    isIsoTimestamp "2025-01-01T00:00:00.001Z" = true ∧
    outputFileName "course-templates" "2025-01-01T00:00:00.000Z" ≠
      outputFileName "course-templates" "2025-01-01T00:00:00.001Z" :=
  ⟨by decide, by decide,
   (c7_output_files none none .null "x" emptyFs "/e" "f" "course-templates"
     "2025-01-01T00:00:00.000Z" "2025-01-01T00:00:00.001Z" (by decide) (by decide)
     (by decide)).2.2.2.2.2⟩

end AccessPlanit
